import Mathlib

/-!
Verification of `src/trazor_agent/monitoring.c`, an eBPF program that
correlates request start/end probes into per-request latency records.

The embedding keeps the C program's names and structure:

* `latency` — a BPF hash map (`__u32` key, `__u64` value, `max_entries`
  192 * 1024), modelled as an association list of `Nat × Nat` pairs.
  `bpf_map_update_elem` with `BPF_ANY` overwrites an existing entry in
  place; a new key is inserted only while the map is below `max_entries`
  (a full hash map rejects the insertion with `-E2BIG`, which the C code
  ignores).
* `events` — a BPF ring buffer of `max_entries` 256 * 1024 bytes.  A
  record reserved with `bpf_ringbuf_reserve` is writable by the producer
  but becomes visible to consumers only after `bpf_ringbuf_submit`; the
  model therefore keeps `submitted` and `reserved` records apart.  The C
  program never calls `bpf_ringbuf_submit`.
* `get_conn_start` — the uprobe handler on `ngx_event_accept`.
* `get_latency_on_end` — the uprobe handler on
  `ngx_http_finalize_connection`.  It returns `Option AgentState`:
  `none` marks the execution that dereferences the unchecked result of
  `bpf_map_lookup_elem` when the lookup misses (undefined behaviour; the
  BPF verifier rejects the load).  The C function's `int` return value is
  `0` on every path and is not modelled.

Machine integers are `Nat` with explicit reductions: `u64` subtraction
wraps modulo `2 ^ 64` (`u64sub`), the `__u32` map key and the `__u32`
`pid` field of `struct http_event` take the low 32 bits of the `u64`
`pid` local (`% 2 ^ 32`).
-/

namespace Trazor

/-- record layout of `struct http_event` (the `__padding__` field has no
behavioural content and is omitted). `timestamp` and `latency_ns` are
`__u64`, `pid` is `__u32`. -/
structure HttpEvent where
  timestamp : Nat
  latency_ns : Nat
  pid : Nat
  deriving Repr, DecidableEq

/-- capacity of the `latency` hash map: `__uint(max_entries, 192 * 1024)`. -/
def latencyMaxEntries : Nat := 192 * 1024

/-- capacity of the `events` ring buffer in bytes: `__uint(max_entries, 256 * 1024)`. -/
def eventsMaxEntries : Nat := 256 * 1024

/-- bytes one `struct http_event` record occupies in the ring buffer:
`sizeof(struct http_event)` is 32 after alignment (4-byte `__padding__`,
4 bytes padding to align `timestamp`, two `__u64` fields, `__u32 pid`,
4 bytes tail padding).  The kernel's per-record bookkeeping header is not
modelled; only boundedness matters to the claims. -/
def httpEventBytes : Nat := 32

/-- state of the `events` ring buffer map: records committed with
`bpf_ringbuf_submit` (visible to consumers) and records reserved with
`bpf_ringbuf_reserve` but never submitted (invisible to consumers, yet
consuming buffer space). -/
structure Ringbuf where
  submitted : List HttpEvent
  reserved : List HttpEvent
  deriving Repr, DecidableEq

/-- whole state of the program's two maps. -/
structure AgentState where
  latency : List (Nat × Nat)
  events : Ringbuf
  deriving Repr, DecidableEq

/-- state at program attach: both maps empty. -/
def emptyState : AgentState := ⟨[], ⟨[], []⟩⟩

/-- `bpf_map_lookup_elem` on a hash map: the value stored under `key`,
if any. -/
def bpf_map_lookup_elem : List (Nat × Nat) → Nat → Option Nat
  | [], _ => none
  | (k, v) :: m, key => if k = key then some v else bpf_map_lookup_elem m key

/-- overwrite in place of the value stored under `key` (the hash map
holds at most one entry per key). -/
def mapOverwrite : List (Nat × Nat) → Nat → Nat → List (Nat × Nat)
  | [], _, _ => []
  | (k, w) :: m, key, v => if k = key then (key, v) :: m else (k, w) :: mapOverwrite m key v

/-- `bpf_map_update_elem` with `BPF_ANY` on a hash map: an existing entry
for `key` is overwritten in place; a new key is inserted while the map
holds fewer than `latencyMaxEntries` entries, otherwise the kernel
rejects the insertion with `-E2BIG` and the map is unchanged (the C code
ignores the return value). -/
def bpf_map_update_elem (m : List (Nat × Nat)) (key v : Nat) : List (Nat × Nat) :=
  if (bpf_map_lookup_elem m key).isSome then
    mapOverwrite m key v
  else if m.length < latencyMaxEntries then
    (key, v) :: m
  else
    m

/-- `bpf_ringbuf_reserve` succeeds exactly when the buffer has room for
one more `struct http_event`; unsubmitted reservations occupy space. -/
abbrev ringbufHasSpace (r : Ringbuf) : Prop :=
  (r.submitted.length + r.reserved.length + 1) * httpEventBytes ≤ eventsMaxEntries

/-- wrap-around width of the C `u64` type. -/
def U64 : Nat := 2 ^ 64

/-- unsigned 64-bit subtraction: `a - b` computed modulo `2 ^ 64`, as the
C expression `ts - *init` on `u64` operands. -/
def u64sub (a b : Nat) : Nat := (a + (U64 - b % U64)) % U64

/-- model of `get_conn_start` (uprobe on `ngx_event_accept`):
`ts = bpf_ktime_get_ns()`, `pid = bpf_get_current_pid_tgid() >> 32`,
then `bpf_map_update_elem(&latency, &pid, &ts, BPF_ANY)`.  The map key
type is `__u32`, so the update uses the low 32 bits of the `u64` `pid`
local.  The helper inputs (`bpf_get_current_pid_tgid`, `bpf_ktime_get_ns`)
are the `pidTgid` and `ts` arguments. -/
def get_conn_start (pidTgid ts : Nat) (s : AgentState) : AgentState :=
  let pid := pidTgid / 2 ^ 32
  { s with latency := bpf_map_update_elem s.latency (pid % 2 ^ 32) ts }

/-- model of `get_latency_on_end` (uprobe on `ngx_http_finalize_connection`).
`pid = bpf_get_current_pid_tgid() >> 32`, `ts = bpf_ktime_get_ns()`;
`bpf_ringbuf_reserve(&events, sizeof *req_info, 0)` returning `NULL`
makes the function return 0 at once, without touching either map.
Otherwise the C code writes `req_info->timestamp = ts`, looks up
`bpf_map_lookup_elem(&latency, &pid)` and dereferences the result with no
`NULL` check: a missing entry is undefined behaviour, modelled as `none`.
On a hit it writes `req_info->latency_ns = ts - *init` (u64 wrap-around)
and `req_info->pid = pid` (truncated to `__u32`), and returns without
ever calling `bpf_ringbuf_submit`: the record stays reserved, never
submitted. -/
def get_latency_on_end (pidTgid ts : Nat) (s : AgentState) : Option AgentState :=
  let pid := pidTgid / 2 ^ 32
  if ringbufHasSpace s.events then
    match bpf_map_lookup_elem s.latency (pid % 2 ^ 32) with
    | none => none
    | some init =>
        some { s with
               events := ⟨s.events.submitted,
                          s.events.reserved ++ [⟨ts, u64sub ts init, pid % 2 ^ 32⟩]⟩ }
  else
    some s

end Trazor

namespace Trazor

/-- C1: a start for process 7 at t1 = 100 followed by an end at t2 = 150
leaves the pending entry in the map and a record with the correct latency
50 in the *reserved* part of the ring buffer, while `submitted` stays
empty: `get_latency_on_end` never calls `bpf_ringbuf_submit`, so no
CompletedEvent is ever emitted to consumers, contradicting the claim that
exactly one is emitted. -/
theorem matched_pair_record_never_submitted :
    get_latency_on_end (7 * 2 ^ 32) 150 (get_conn_start (7 * 2 ^ 32) 100 emptyState)
      = some ⟨[(7, 100)], ⟨[], [⟨150, 50, 7⟩]⟩⟩ := by decide

/-- C2: an end signal for process 3 with no pending start reaches the
unchecked dereference of the `NULL` result of `bpf_map_lookup_elem`
(undefined behaviour, modelled `none`); the code neither returns normally
with the end counted (no UnmatchedEnd counter exists in the program) nor
emits zero events safely, contradicting the claim. -/
theorem unmatched_end_null_deref :
    get_latency_on_end (3 * 2 ^ 32) 50 emptyState = none := by decide

/-- C3: the lookup result is not checked before use: for an end with no
pending start the lookup yields `none`, and the handler's execution is
undefined (the C code dereferences the `NULL` pointer `init`), rather
than detecting and handling the absence as the claim states. -/
theorem unmatched_end_lookup_unchecked :
    bpf_map_lookup_elem emptyState.latency 3 = none ∧
      get_latency_on_end (3 * 2 ^ 32) 60 emptyState = none := by
  exact ⟨by decide, by decide⟩

/-- C4 counterexample: processing the matched end for process 5 leaves the
pending entry `(5, 100)` in the `latency` map — the C code contains no
`bpf_map_delete_elem`, so the claimed takeAndRemove semantics fail and a
second `End(5, _)` with no new start still finds the old entry. -/
theorem matched_end_entry_remains :
    get_latency_on_end (5 * 2 ^ 32) 150 ⟨[(5, 100)], ⟨[], []⟩⟩
        = some ⟨[(5, 100)], ⟨[], [⟨150, 50, 5⟩]⟩⟩ ∧
      bpf_map_lookup_elem [(5, 100)] 5 = some 100 := by
  exact ⟨by decide, by decide⟩

/-- C4 amended: every execution of the end handler that completes leaves
the `latency` map exactly as it was — the pending start is never removed
(nor changed), so a later end for the same key finds the same entry. -/
theorem end_handler_preserves_index (pidTgid ts : Nat) (s s' : AgentState)
    (h : get_latency_on_end pidTgid ts s = some s') : s'.latency = s.latency := by
  simp only [get_latency_on_end] at h
  split at h
  · split at h
    · exact absurd h (by simp)
    · simp only [Option.some.injEq] at h
      subst h
      rfl
  · simp only [Option.some.injEq] at h
    subst h
    rfl

/-- C4 amended, witness: the handler run of `matched_end_entry_remains`
keeps the `latency` map of the pre-state. -/
theorem end_handler_preserves_index_w :
    get_latency_on_end (2 ^ 32) 50 ⟨[(1, 20)], ⟨[], []⟩⟩
        = some ⟨[(1, 20)], ⟨[], [⟨50, 30, 1⟩]⟩⟩ ∧
      (⟨[(1, 20)], ⟨[], [⟨50, 30, 1⟩]⟩⟩ : AgentState).latency
        = (⟨[(1, 20)], ⟨[], []⟩⟩ : AgentState).latency :=
  ⟨by decide, end_handler_preserves_index (2 ^ 32) 50 _ _ (by decide)⟩

/-- C5 counterexample: an end at `t2 = 40` against a recorded start at
`t1 = 100` produces the wrapped u64 value `2 ^ 64 - 60` in `latency_ns`,
not a value clamped to `0`, and no anomaly counter exists to increment:
the claim's clamping behaviour is absent from the code. -/
theorem negative_latency_wraps :
    get_latency_on_end (9 * 2 ^ 32) 40 ⟨[(9, 100)], ⟨[], []⟩⟩
        = some ⟨[(9, 100)], ⟨[], [⟨40, 2 ^ 64 - 60, 9⟩]⟩⟩ ∧
      2 ^ 64 - 60 ≠ 0 := by
  exact ⟨by decide, by decide⟩

/-- C5 amended: whenever the end timestamp `t2` is smaller than the
recorded start `t1`, the record written by the end handler carries
`latency_ns = 2 ^ 64 - (t1 - t2)`: the C expression `ts - *init` wraps
around on `u64`, with no clamping and no anomaly counter. -/
theorem clock_anomaly_wrapped_delta (k t1 t2 : Nat) (hk : k < 2 ^ 32)
    (h1 : t1 < 2 ^ 64) (h21 : t2 < t1) :
    get_latency_on_end (k * 2 ^ 32) t2 ⟨[(k, t1)], ⟨[], []⟩⟩
      = some ⟨[(k, t1)], ⟨[], [⟨t2, 2 ^ 64 - (t1 - t2), k⟩]⟩⟩ := by
  have hdiv : k * 2 ^ 32 / 2 ^ 32 = k := by
    rw [show (2 : Nat) ^ 32 = 4294967296 by norm_num]
    omega
  have hmod : k % 2 ^ 32 = k := Nat.mod_eq_of_lt hk
  have hpow : (2 : Nat) ^ 64 = 18446744073709551616 := by norm_num
  have hsub : u64sub t2 t1 = 2 ^ 64 - (t1 - t2) := by
    unfold u64sub U64
    rw [Nat.mod_eq_of_lt h1, Nat.mod_eq_of_lt (by omega)]
    omega
  have hmod' : k % 4294967296 = k :=
    Nat.mod_eq_of_lt (by rw [show (4294967296 : Nat) = 2 ^ 32 by norm_num]; exact hk)
  simp [get_latency_on_end, hdiv, hmod, hmod', bpf_map_lookup_elem, hsub,
    httpEventBytes, eventsMaxEntries]

/-- C5 amended, witness: process 2 with start 500 and end 10 yields the
wrapped latency `2 ^ 64 - 490`. -/
theorem clock_anomaly_wrapped_delta_w :
    (2 : Nat) < 2 ^ 32 ∧ (500 : Nat) < 2 ^ 64 ∧ (10 : Nat) < 500 ∧
      get_latency_on_end (2 * 2 ^ 32) 10 ⟨[(2, 500)], ⟨[], []⟩⟩
        = some ⟨[(2, 500)], ⟨[], [⟨10, 2 ^ 64 - 490, 2⟩]⟩⟩ :=
  ⟨by decide, by decide, by decide,
    clock_anomaly_wrapped_delta 2 500 10 (by decide) (by decide) (by decide)⟩

/-- C7: two starts for process 4 (t1 = 100 then t2 = 200, `BPF_ANY`
overwrites) followed by one end at t3 = 300 write exactly one record with
the overwrite-policy latency t3 - t2 = 100, but into *reserved* ring
buffer memory only — `submitted` stays empty because `bpf_ringbuf_submit`
is never called, so no CompletedEvent reaches a consumer. -/
theorem double_start_overwrite_never_submitted :
    get_latency_on_end (4 * 2 ^ 32) 300
        (get_conn_start (4 * 2 ^ 32) 200 (get_conn_start (4 * 2 ^ 32) 100 emptyState))
      = some ⟨[(4, 200)], ⟨[], [⟨300, 100, 4⟩]⟩⟩ := by decide

/-- ring buffer holding as many `struct http_event` records as its
256 KiB byte capacity admits, so that `bpf_ringbuf_reserve` fails. -/
def fullRingbuf : Ringbuf :=
  ⟨List.replicate (eventsMaxEntries / httpEventBytes) ⟨0, 0, 0⟩, []⟩

/-- the end handler at a saturated ring buffer: `bpf_ringbuf_reserve`
returns `NULL` and the handler returns 0 at once, leaving the state as it
was. -/
theorem ringbuf_full_end_frame (pidTgid ts : Nat) (s : AgentState)
    (h : ¬ ringbufHasSpace s.events) : get_latency_on_end pidTgid ts s = some s := by
  simp only [get_latency_on_end]
  rw [if_neg h]

/-- concrete state whose ring buffer is filled to its byte capacity, with
one pending start for process 1. -/
def sFull : AgentState := ⟨[(1, 10)], fullRingbuf⟩

/-- the full ring buffer of `sFull` has no room for a further
`struct http_event` reservation. -/
theorem sFull_no_space : ¬ ringbufHasSpace sFull.events := by
  simp only [ringbufHasSpace, sFull, fullRingbuf, List.length_replicate, List.length_nil,
    httpEventBytes, eventsMaxEntries]
  norm_num

/-- C6 counterexample: with the ring buffer full, the end handler for
process 1 returns normally but with the state entirely unchanged — the
event is dropped, yet nothing in the program records the drop, because
the code defines no drop counter at all; the claim's "a drop counter is
incremented" has no realisation in the state. -/
theorem full_channel_state_unchanged :
    get_latency_on_end (2 ^ 32) 50 sFull = some sFull :=
  ringbuf_full_end_frame (2 ^ 32) 50 sFull sFull_no_space

/-- C6 amended: whenever `bpf_ringbuf_reserve` fails for lack of space,
the end handler returns 0 immediately (no blocking path exists in the
code), dropping the event and leaving both maps untouched; no drop
counter exists, so none is incremented. -/
theorem full_channel_drops_and_returns (pidTgid ts : Nat) (s : AgentState)
    (h : ¬ ringbufHasSpace s.events) : get_latency_on_end pidTgid ts s = some s :=
  ringbuf_full_end_frame pidTgid ts s h

/-- C6 amended, witness: the concrete full-buffer state `sFull` with a
different timestamp. -/
theorem full_channel_drops_and_returns_w :
    ¬ ringbufHasSpace sFull.events ∧ get_latency_on_end 5 99 sFull = some sFull :=
  ⟨sFull_no_space, full_channel_drops_and_returns 5 99 sFull sFull_no_space⟩

/-- overwriting the entry for `key` in place keeps the number of entries. -/
theorem length_mapOverwrite (m : List (Nat × Nat)) (key v : Nat) :
    (mapOverwrite m key v).length = m.length := by
  induction m with
  | nil => rfl
  | cons hd tl ih =>
    obtain ⟨a, b⟩ := hd
    by_cases hak : a = key
    · simp [mapOverwrite, hak]
    · simp [mapOverwrite, hak, ih]

/-- overwriting the entry for `key` in place leaves the stored value of
every other key unchanged. -/
theorem lookup_overwrite_ne (m : List (Nat × Nat)) (key v k' : Nat) (h : k' ≠ key) :
    bpf_map_lookup_elem (mapOverwrite m key v) k' = bpf_map_lookup_elem m k' := by
  induction m with
  | nil => rfl
  | cons hd tl ih =>
    obtain ⟨a, b⟩ := hd
    by_cases hak : a = key
    · subst hak
      simp [mapOverwrite, bpf_map_lookup_elem, Ne.symm h]
    · simp [mapOverwrite, bpf_map_lookup_elem, hak, ih]

/-- `bpf_map_update_elem` for `key` leaves the stored value of every
other key unchanged, in all three branches (overwrite, insert, reject at
capacity). -/
theorem lookup_update_ne (m : List (Nat × Nat)) (key v k' : Nat) (h : k' ≠ key) :
    bpf_map_lookup_elem (bpf_map_update_elem m key v) k' = bpf_map_lookup_elem m k' := by
  unfold bpf_map_update_elem
  split
  · exact lookup_overwrite_ne m key v k' h
  · split
    · simp [bpf_map_lookup_elem, Ne.symm h]
    · rfl

/-- C8: a start signal keeps the `latency` map within its 192 * 1024
capacity (overwrite keeps the size, insert is guarded by the capacity
check, at capacity the kernel rejects the new key), and the entry of any
other key is left exactly as it was. -/
theorem index_capacity_invariant (s : AgentState) (pidTgid ts k' : Nat)
    (hcap : s.latency.length ≤ latencyMaxEntries)
    (hk' : k' ≠ pidTgid / 2 ^ 32 % 2 ^ 32) :
    (get_conn_start pidTgid ts s).latency.length ≤ latencyMaxEntries ∧
      bpf_map_lookup_elem (get_conn_start pidTgid ts s).latency k'
        = bpf_map_lookup_elem s.latency k' := by
  refine ⟨?_, lookup_update_ne s.latency _ ts k' hk'⟩
  simp only [get_conn_start]
  unfold bpf_map_update_elem
  split
  · simpa [length_mapOverwrite] using hcap
  · split
    · next hlen => simpa using hlen
    · exact hcap

/-- C8 witness: starting process 1 on the empty index respects the
capacity bound and leaves key 3 absent as before. -/
theorem index_capacity_invariant_w :
    emptyState.latency.length ≤ latencyMaxEntries ∧
      (3 : Nat) ≠ 2 ^ 32 / 2 ^ 32 % 2 ^ 32 ∧
      ((get_conn_start (2 ^ 32) 5 emptyState).latency.length ≤ latencyMaxEntries ∧
        bpf_map_lookup_elem (get_conn_start (2 ^ 32) 5 emptyState).latency 3
          = bpf_map_lookup_elem emptyState.latency 3) :=
  ⟨by decide, by decide, index_capacity_invariant emptyState (2 ^ 32) 5 3 (by decide) (by decide)⟩

/-- C9: `get_conn_start` mutates only the caller's own key: the `events`
ring buffer is untouched and every other key's pending entry reads the
same before and after. -/
theorem start_frame_effect (s : AgentState) (pidTgid ts k' : Nat)
    (hk' : k' ≠ pidTgid / 2 ^ 32 % 2 ^ 32) :
    (get_conn_start pidTgid ts s).events = s.events ∧
      bpf_map_lookup_elem (get_conn_start pidTgid ts s).latency k'
        = bpf_map_lookup_elem s.latency k' :=
  ⟨rfl, lookup_update_ne s.latency _ ts k' hk'⟩

/-- C9 witness: a start for process 2 on a one-entry state leaves the
ring buffer and the entry of key 9 unchanged. -/
theorem start_frame_effect_w :
    (7 : Nat) ≠ 2 * 2 ^ 32 / 2 ^ 32 % 2 ^ 32 ∧
      ((get_conn_start (2 * 2 ^ 32) 44 ⟨[(7, 11)], ⟨[], []⟩⟩).events
          = (⟨[(7, 11)], ⟨[], []⟩⟩ : AgentState).events ∧
        bpf_map_lookup_elem (get_conn_start (2 * 2 ^ 32) 44 ⟨[(7, 11)], ⟨[], []⟩⟩).latency 7
          = bpf_map_lookup_elem (⟨[(7, 11)], ⟨[], []⟩⟩ : AgentState).latency 7) :=
  ⟨by decide, start_frame_effect ⟨[(7, 11)], ⟨[], []⟩⟩ (2 * 2 ^ 32) 44 7 (by decide)⟩

/-- C10: both handlers derive the map key as the upper 32 bits of
`bpf_get_current_pid_tgid()` (the process id `tgid`), so a start raised
by thread `tid1` and an end raised by thread `tid2` of the same process
`tgid` use the same key: the end finds the start, and the record carries
`pid = tgid` and the latency computed from that shared entry. -/
theorem thread_key_correlation (tgid tid1 tid2 t1 t2 : Nat)
    (h1 : tid1 < 2 ^ 32) (h2 : tid2 < 2 ^ 32) (h3 : tgid < 2 ^ 32) :
    get_latency_on_end (tgid * 2 ^ 32 + tid2) t2
        (get_conn_start (tgid * 2 ^ 32 + tid1) t1 emptyState)
      = some ⟨[(tgid, t1)], ⟨[], [⟨t2, u64sub t2 t1, tgid⟩]⟩⟩ := by
  have hpow : (2 : Nat) ^ 32 = 4294967296 := by norm_num
  rw [hpow] at h1 h2 h3
  have e1 : (tgid * 4294967296 + tid1) / 4294967296 % 4294967296 = tgid := by omega
  have e2 : (tgid * 4294967296 + tid2) / 4294967296 % 4294967296 = tgid := by omega
  have emod : tgid % 4294967296 = tgid := by omega
  simp [get_conn_start, get_latency_on_end, hpow, e1, e2, emod,
    bpf_map_update_elem, bpf_map_lookup_elem, latencyMaxEntries,
    httpEventBytes, eventsMaxEntries, emptyState]

/-- C10 witness: thread 3 of process 2 starts at 10, thread 4 of the same
process ends at 25; the end finds the start and records latency 15 under
key 2. -/
theorem thread_key_correlation_w :
    (3 : Nat) < 2 ^ 32 ∧ (4 : Nat) < 2 ^ 32 ∧ (2 : Nat) < 2 ^ 32 ∧
      get_latency_on_end (2 * 2 ^ 32 + 4) 25
          (get_conn_start (2 * 2 ^ 32 + 3) 10 emptyState)
        = some ⟨[(2, 10)], ⟨[], [⟨25, u64sub 25 10, 2⟩]⟩⟩ :=
  ⟨by decide, by decide, by decide,
    thread_key_correlation 2 3 4 10 25 (by decide) (by decide) (by decide)⟩

end Trazor
